import Mathlib

/-!
Shallow embedding of the ClipForge-AI gallery and generation-service logic.

The definitions below are translated from the TypeScript sources:
* `src/types.ts` — the `CapturedFrame`, `GeneratedImage`, `AnalysisResult` data model;
* `src/App.tsx` — the gallery handlers `handleCapture`, `handleSelectFrame`,
  `handleDeleteFrame`, `handleImageSaved`, and the API-key save handler
  `handleSaveApiKey`;
* `src/services/geminiService.ts` — `analyzeFrame` response handling,
  `generateImageFromPrompt` fan-out, and `generateVideoFromImage`
  (aspect-ratio bucketing, default prompt, polling loop, 403 classification);
* `src/components/CreativeStudio` — `handleGenerate`.

JavaScript strings are Lean `String`s; JS `number` fields that the verified
claims never compute with (`timestamp`, `createdAt`) are carried as `Int`.
JS `undefined`/optional fields become `Option`.  Asynchronous remote calls
are modelled by passing their outcomes (`Except JsError _`) as explicit
arguments; the unbounded `while` polling loop is modelled with explicit fuel.
-/

namespace ClipForge

/-- JS-string helpers: `String.prototype.trim` removes leading and trailing
whitespace.  Modelled directly on the character list so that it reduces in
the kernel. -/
def jsTrim (s : String) : String :=
  ⟨((s.data.dropWhile Char.isWhitespace).reverse.dropWhile Char.isWhitespace).reverse⟩

/-- JS `String.prototype.startsWith`. -/
def jsStartsWith (s pat : String) : Bool :=
  pat.data.isPrefixOf s.data

/-- `listIncludes needle hay`: `needle` occurs contiguously in `hay`. -/
def listIncludes (needle : List Char) : List Char → Bool
  | [] => needle.isPrefixOf []
  | c :: t => needle.isPrefixOf (c :: t) || listIncludes needle t

/-- JS `String.prototype.includes`: `sub` occurs somewhere in `s`. -/
def jsIncludes (s sub : String) : Bool :=
  listIncludes sub.data s.data

/-! ## Frame model — `src/types.ts` -/

/-- `CapturedFrame` from `src/types.ts`. -/
structure CapturedFrame where
  id : String
  dataUrl : String
  timestamp : Int
  createdAt : Int
  isGenerated : Option Bool := none
  width : Option Nat := none
  height : Option Nat := none
deriving Repr, DecidableEq

/-- `GeneratedImage` from `src/types.ts`. -/
structure GeneratedImage where
  id : String
  dataUrl : String
  promptUsed : String
  createdAt : Int
deriving Repr, DecidableEq

/-- `AnalysisResult` from `src/types.ts`. -/
structure AnalysisResult where
  chineseDescription : String
  englishPrompt : String
deriving Repr, DecidableEq

/-! ## Gallery state and handlers — `src/App.tsx`

The `App` component's gallery-relevant state is the `frames` list and the
`selectedFrame` pointer.  (`currentStep`/`seekTimestamp` are view-sync state
that no handler below reads back into the gallery, so they are omitted.) -/

structure AppGalleryState where
  frames : List CapturedFrame
  selectedFrame : Option CapturedFrame
deriving Repr, DecidableEq

/-- The initial `useState` values: empty frame list, null selection. -/
def initialGalleryState : AppGalleryState :=
  { frames := [], selectedFrame := none }

/-- `handleCapture` (src/App.tsx:55-60): append the frame; if no frame is
currently selected, select the new one. -/
def handleCapture (s : AppGalleryState) (frame : CapturedFrame) : AppGalleryState :=
  { frames := s.frames ++ [frame]
    selectedFrame :=
      match s.selectedFrame with
      | none => some frame
      | some sel => some sel }

/-- `handleSelectFrame` (src/App.tsx:62-68), restricted to the gallery
fields: set the selection to the given frame. -/
def handleSelectFrame (s : AppGalleryState) (frame : CapturedFrame) : AppGalleryState :=
  { s with selectedFrame := some frame }

/-- `handleDeleteFrame` (src/App.tsx:70-75): filter out frames with the
given id; clear the selection iff the selected frame carried that id. -/
def handleDeleteFrame (s : AppGalleryState) (id : String) : AppGalleryState :=
  { frames := s.frames.filter (fun f => f.id != id)
    selectedFrame :=
      match s.selectedFrame with
      | some sel => if sel.id = id then none else some sel
      | none => none }

/-- The `CapturedFrame` that `handleImageSaved` builds from a
`GeneratedImage` (src/App.tsx:93-99). -/
def frameOfGeneratedImage (img : GeneratedImage) : CapturedFrame :=
  { id := img.id
    dataUrl := img.dataUrl
    timestamp := 0
    createdAt := img.createdAt
    isGenerated := some true }

/-- `handleImageSaved` (src/App.tsx:91-102): prepend the converted frame;
the selection is untouched. -/
def handleImageSaved (s : AppGalleryState) (img : GeneratedImage) : AppGalleryState :=
  { s with frames := frameOfGeneratedImage img :: s.frames }

/-! ## Gallery operation sequences

Every call site of `handleSelectFrame` in `src/App.tsx` passes a frame
obtained from rendering the current `frames` list (`frames.map (f => ...
onClick={() => handleSelectFrame(f)})`), so a `select` event is indexed by
the position of the clicked frame; a click outside the rendered list cannot
happen and is a no-op. -/

inductive GalleryOp where
  | capture (frame : CapturedFrame)
  | select (i : Nat)
  | delete (id : String)
  | importGenerated (img : GeneratedImage)
deriving Repr

def applyOp (s : AppGalleryState) (op : GalleryOp) : AppGalleryState :=
  match op with
  | .capture f => handleCapture s f
  | .select i =>
      match s.frames.get? i with
      | some f => handleSelectFrame s f
      | none => s
  | .delete id => handleDeleteFrame s id
  | .importGenerated img => handleImageSaved s img

def applyOps (ops : List GalleryOp) : AppGalleryState :=
  ops.foldl applyOp initialGalleryState

/-- The selection pointer is null or names (by id) a frame in the list. -/
def selectionValid (s : AppGalleryState) : Prop :=
  ∀ sel, s.selectedFrame = some sel → ∃ f ∈ s.frames, f.id = sel.id

lemma selectionValid_handleCapture (s : AppGalleryState) (f : CapturedFrame)
    (h : selectionValid s) : selectionValid (handleCapture s f) := by
  intro sel hsel
  cases h0 : s.selectedFrame with
  | none =>
      simp only [handleCapture, h0, Option.some.injEq] at hsel
      exact ⟨f, List.mem_append_right _ (List.mem_singleton_self f), by rw [hsel]⟩
  | some t =>
      simp only [handleCapture, h0, Option.some.injEq] at hsel
      obtain ⟨g, hg, hid⟩ := h t h0
      exact ⟨g, List.mem_append_left _ hg, by rw [hid, ← hsel]⟩

lemma selectionValid_handleSelect (s : AppGalleryState) (f : CapturedFrame)
    (hf : f ∈ s.frames) : selectionValid (handleSelectFrame s f) := by
  intro sel hsel
  simp only [handleSelectFrame, Option.some.injEq] at hsel
  exact ⟨f, hf, by rw [hsel]⟩

lemma selectionValid_handleDelete (s : AppGalleryState) (id : String)
    (h : selectionValid s) : selectionValid (handleDeleteFrame s id) := by
  intro sel hsel
  cases h0 : s.selectedFrame with
  | none =>
      simp only [handleDeleteFrame, h0] at hsel
      exact Option.noConfusion hsel
  | some t =>
      simp only [handleDeleteFrame, h0] at hsel
      by_cases hid : t.id = id
      · rw [if_pos hid] at hsel
        exact Option.noConfusion hsel
      · rw [if_neg hid] at hsel
        obtain rfl : t = sel := by injection hsel
        obtain ⟨g, hg, hgid⟩ := h t h0
        refine ⟨g, List.mem_filter.mpr ⟨hg, ?_⟩, hgid⟩
        simp only [bne_iff_ne, ne_eq]
        rw [hgid]
        exact hid

lemma selectionValid_handleImageSaved (s : AppGalleryState) (img : GeneratedImage)
    (h : selectionValid s) : selectionValid (handleImageSaved s img) := by
  intro sel hsel
  simp only [handleImageSaved] at hsel
  obtain ⟨g, hg, hgid⟩ := h sel hsel
  exact ⟨g, List.mem_cons_of_mem _ hg, hgid⟩

lemma selectionValid_applyOp (s : AppGalleryState) (op : GalleryOp)
    (h : selectionValid s) : selectionValid (applyOp s op) := by
  cases op with
  | capture f => exact selectionValid_handleCapture s f h
  | select i =>
      show selectionValid (match s.frames.get? i with
        | some f => handleSelectFrame s f
        | none => s)
      cases hget : s.frames.get? i with
      | none => exact h
      | some f => exact selectionValid_handleSelect s f (List.get?_mem hget)
  | delete id => exact selectionValid_handleDelete s id h
  | importGenerated img => exact selectionValid_handleImageSaved s img h

lemma selectionValid_foldl (ops : List GalleryOp) :
    ∀ s : AppGalleryState, selectionValid s → selectionValid (ops.foldl applyOp s) := by
  induction ops with
  | nil => intro s h; exact h
  | cons op rest ih =>
      intro s h
      exact ih (applyOp s op) (selectionValid_applyOp s op h)

/-- C1: for every sequence of gallery operations (add via `handleCapture`,
remove via `handleDeleteFrame`, select via `handleSelectFrame`,
importGenerated via `handleImageSaved`) starting from the empty gallery, the
selection pointer is either null or refers (by id) to a frame present in the
current frame sequence — it never dangles. -/
theorem gallery_selection_never_dangles (ops : List GalleryOp) :
    (applyOps ops).selectedFrame = none ∨
      ∃ sel, (applyOps ops).selectedFrame = some sel ∧
        ∃ f ∈ (applyOps ops).frames, f.id = sel.id := by
  have h : selectionValid (applyOps ops) :=
    selectionValid_foldl ops initialGalleryState
      (fun sel hsel => Option.noConfusion hsel)
  cases hsel : (applyOps ops).selectedFrame with
  | none => exact Or.inl rfl
  | some sel => exact Or.inr ⟨sel, rfl, h sel hsel⟩

/-! ## C2 — `handleDeleteFrame` removes exactly the frame with the given id -/

lemma filter_ne_id_eq_self (l : List CapturedFrame) (id : String)
    (h : ∀ g ∈ l, g.id ≠ id) : l.filter (fun g => g.id != id) = l :=
  List.filter_eq_self.mpr (fun g hg => by simpa using h g hg)

/-- When frame ids are duplicate-free, the id-based filter of
`handleDeleteFrame` removes exactly the one frame carrying that id. -/
lemma filter_delete_of_nodup (l : List CapturedFrame) (f : CapturedFrame)
    (hnodup : (l.map (fun g => g.id)).Nodup) (hmem : f ∈ l) :
    l.filter (fun g => g.id != f.id) = l.erase f := by
  induction l with
  | nil => cases hmem
  | cons a t ih =>
      rw [List.map_cons, List.nodup_cons] at hnodup
      obtain ⟨ha, ht⟩ := hnodup
      by_cases haf : a = f
      · subst haf
        rw [List.erase_cons_head, List.filter_cons]
        have hfalse : (a.id != a.id) = false := by simp
        rw [hfalse]
        simp only [Bool.false_eq_true, if_false]
        exact filter_ne_id_eq_self t a.id
          (fun g hg hgid => ha (hgid ▸ List.mem_map_of_mem _ hg))
      · have hf : f ∈ t := (List.mem_cons.mp hmem).resolve_left (fun hEq => haf hEq.symm)
        have haid : a.id ≠ f.id := fun hEq => ha (hEq ▸ List.mem_map_of_mem _ hf)
        have htrue : (a.id != f.id) = true := by simpa using haid
        rw [List.filter_cons, htrue]
        simp only [if_true]
        rw [List.erase_cons_tail, ih ht hf]
        simpa using haf

/-- C2: in every gallery whose frame ids are pairwise distinct and which
contains the frame `f`, `handleDeleteFrame` at `f.id` removes exactly that
frame (all other frames unchanged, in order); if `f` was selected the
selection becomes null, and otherwise the selection is untouched — it is
never reassigned to another frame. -/
theorem delete_removes_exactly_and_clears_selection
    (s : AppGalleryState) (f : CapturedFrame)
    (hnodup : (s.frames.map (fun g => g.id)).Nodup) (hmem : f ∈ s.frames) :
    (handleDeleteFrame s f.id).frames = s.frames.erase f
    ∧ (∀ sel, s.selectedFrame = some sel → sel.id = f.id →
        (handleDeleteFrame s f.id).selectedFrame = none)
    ∧ (∀ sel, s.selectedFrame = some sel → sel.id ≠ f.id →
        (handleDeleteFrame s f.id).selectedFrame = some sel)
    ∧ (s.selectedFrame = none → (handleDeleteFrame s f.id).selectedFrame = none) := by
  refine ⟨filter_delete_of_nodup s.frames f hnodup hmem, ?_, ?_, ?_⟩
  · intro sel hsel hid
    simp [handleDeleteFrame, hsel, hid]
  · intro sel hsel hid
    simp [handleDeleteFrame, hsel, hid]
  · intro hsel
    simp [handleDeleteFrame, hsel]

/-! Concrete frames for witnesses and counterexamples. -/

def fA : CapturedFrame :=
  { id := "cap-1700000000000-aaa", dataUrl := "data:image/jpeg;base64,AAAA"
    timestamp := 3, createdAt := 1700000000000 }

def fB : CapturedFrame :=
  { id := "cap-1700000000001-bbb", dataUrl := "data:image/jpeg;base64,BBBB"
    timestamp := 7, createdAt := 1700000000001 }

def fC : CapturedFrame :=
  { id := "cap-1700000000002-ccc", dataUrl := "data:image/jpeg;base64,CCCC"
    timestamp := 9, createdAt := 1700000000002 }

theorem delete_removes_exactly_witness :
    (handleDeleteFrame { frames := [fA, fB], selectedFrame := some fA } fA.id).frames = [fB]
    ∧ (handleDeleteFrame { frames := [fA, fB], selectedFrame := some fA } fA.id).selectedFrame
        = none := by
  have h := delete_removes_exactly_and_clears_selection
    { frames := [fA, fB], selectedFrame := some fA } fA (by decide) (by decide)
  refine ⟨?_, h.2.1 fA rfl rfl⟩
  rw [h.1]
  decide

/-! ## C3 — what `handleCapture` does to the selection -/

/-- The gallery reached from empty by: capture `fA`, capture `fB`, delete
`fA.id`.  Its frame list is `[fB]` (non-empty) and its selection is null. -/
def galleryAfterAddAddDelete : AppGalleryState :=
  handleDeleteFrame (handleCapture (handleCapture initialGalleryState fA) fB) fA.id

/-- C3 counterexample: the claim that `add` on a *non-empty* gallery never
changes the selection is false.  On the reachable non-empty gallery with a
null selection (capture `fA`, capture `fB`, delete `fA.id`), a further
capture changes the selection from null to the new frame. -/
theorem add_on_nonempty_changes_selection_counterexample :
    galleryAfterAddAddDelete.frames ≠ []
    ∧ (handleCapture galleryAfterAddAddDelete fC).selectedFrame
        ≠ galleryAfterAddAddDelete.selectedFrame := by
  decide

/-- C3 amended: `handleCapture` appends the frame at the end of the
sequence; when no frame is selected (in particular on the empty gallery) the
new frame becomes selected; when some frame is selected, the selection never
changes. -/
theorem add_appends_and_selects_when_unselected
    (s : AppGalleryState) (f : CapturedFrame) :
    (handleCapture s f).frames = s.frames ++ [f]
    ∧ (s.selectedFrame = none → (handleCapture s f).selectedFrame = some f)
    ∧ (∀ sel, s.selectedFrame = some sel →
        (handleCapture s f).selectedFrame = some sel) := by
  refine ⟨rfl, ?_, ?_⟩
  · intro hsel
    simp [handleCapture, hsel]
  · intro sel hsel
    simp [handleCapture, hsel]

theorem add_appends_and_selects_witness :
    (handleCapture initialGalleryState fA).frames = [fA]
    ∧ (handleCapture initialGalleryState fA).selectedFrame = some fA
    ∧ (handleCapture { frames := [fA], selectedFrame := some fA } fB).selectedFrame
        = some fA := by
  have h1 := add_appends_and_selects_when_unselected initialGalleryState fA
  have h2 := add_appends_and_selects_when_unselected
    { frames := [fA], selectedFrame := some fA } fB
  exact ⟨by rw [h1.1]; rfl, h1.2.1 rfl, h2.2.2 fA rfl⟩

/-! ## C4 — error classification in `src/services/geminiService.ts`

Each exported service function wraps its body in `try/catch`; the embedding
below captures what each catch block does to a thrown error. -/

/-- A thrown JS error as the catch blocks inspect it: optional numeric
`status` and `code` fields and an optional `message` string. -/
structure JsError where
  status : Option Int := none
  code : Option Int := none
  message : Option String := none
deriving Repr, DecidableEq

/-- The user-facing message built by the 403 branch of
`generateVideoFromImage` (src/services/geminiService.ts:202). -/
def billingRequiredMessage : String :=
  "Permission Denied (403): Veo requires a PAID Google Cloud API Key with billing enabled. Please set a valid key in the top right corner."

/-- The 403 test of `generateVideoFromImage`
(src/services/geminiService.ts:201): `error.status === 403 ||
error.code === 403 || (error.message && error.message.includes('403'))`. -/
def is403Error (e : JsError) : Bool :=
  e.status == some 403 || e.code == some 403 ||
    (match e.message with
     | some m => jsIncludes m "403"
     | none => false)

/-- The catch block of `generateVideoFromImage`
(src/services/geminiService.ts:198-205): a 403-indicating error is replaced
by a fresh `Error` carrying the paid-tier message; every other error is
rethrown unchanged. -/
def veoCatchRethrow (e : JsError) : JsError :=
  if is403Error e then { message := some billingRequiredMessage } else e

/-- The catch block of `analyzeFrame` (src/services/geminiService.ts:73-76):
log and rethrow the error unchanged. -/
def analyzeCatchRethrow (e : JsError) : JsError := e

/-- The catch block of `generateImageFromPrompt`
(src/services/geminiService.ts:120-123): log and rethrow unchanged. -/
def imageGenCatchRethrow (e : JsError) : JsError := e

/-- An error is the `BillingRequiredError` iff it carries the distinct
paid-tier message. -/
def isBillingRequiredError (e : JsError) : Bool :=
  e.message == some billingRequiredMessage

/-- C4 counterexample: classification is not uniform across the three job
kinds.  An error with HTTP status 403 passes through `analyzeFrame`'s catch
block unchanged and is not the `BillingRequiredError` (and likewise for
`generateImageFromPrompt`), even though the same error is 403-indicating. -/
theorem analyze_does_not_reclassify_403 :
    is403Error { status := some 403 } = true
    ∧ analyzeCatchRethrow { status := some 403 } = { status := some 403 }
    ∧ isBillingRequiredError (analyzeCatchRethrow { status := some 403 }) = false
    ∧ imageGenCatchRethrow { status := some 403 } = { status := some 403 }
    ∧ isBillingRequiredError (imageGenCatchRethrow { status := some 403 }) = false := by
  refine ⟨by decide, rfl, by decide, rfl, by decide⟩

/-- C4 amended: only the VideoGenerate path classifies errors — any error
whose status, code, or message indicates HTTP 403 is reclassified by
`generateVideoFromImage` as the `BillingRequiredError`, and every other
error passes through it with the vendor-provided fields; `analyzeFrame` and
`generateImageFromPrompt` rethrow every error unchanged, performing no 403
reclassification. -/
theorem error_classification_video_only (e : JsError) :
    (is403Error e = true →
      veoCatchRethrow e = { message := some billingRequiredMessage }
      ∧ isBillingRequiredError (veoCatchRethrow e) = true)
    ∧ (is403Error e = false → veoCatchRethrow e = e)
    ∧ analyzeCatchRethrow e = e
    ∧ imageGenCatchRethrow e = e := by
  refine ⟨?_, ?_, rfl, rfl⟩
  · intro h
    constructor
    · simp [veoCatchRethrow, h]
    · simp [veoCatchRethrow, h, isBillingRequiredError]
  · intro h
    simp [veoCatchRethrow, h]

theorem error_classification_video_only_witness :
    veoCatchRethrow { status := some 403 } = { message := some billingRequiredMessage }
    ∧ veoCatchRethrow { message := some "quota exceeded" }
        = { message := some "quota exceeded" } := by
  have h1 := error_classification_video_only { status := some 403 }
  have h2 := error_classification_video_only { message := some "quota exceeded" }
  exact ⟨(h1.1 (by decide)).1, h2.2.1 (by decide)⟩

/-! ## C5 — `generateImageFromPrompt` fan-out and `CreativeStudio.handleGenerate` -/

/-- `Promise.all` over the settled outcomes of the sub-requests: fulfils
with the list of values iff every sub-request fulfilled, otherwise rejects
with a failing sub-request's error. -/
def promiseAll : List (Except JsError String) → Except JsError (List String)
  | [] => .ok []
  | p :: rest =>
    match p, promiseAll rest with
    | .error e, _ => .error e
    | .ok _, .error e => .error e
    | .ok a, .ok as => .ok (a :: as)

/-- `generateImageFromPrompt` (src/services/geminiService.ts:83-124): fans
out `count` independent sub-requests (`Array.from({length: count}).map`)
and awaits them all.  `sub i` is the settled outcome of the `i`-th
sub-request — one remote `generateContent` call together with its
inline-image extraction, which yields a data URL or throws. -/
def generateImageFromPrompt (count : Nat)
    (sub : Nat → Except JsError String) : Except JsError (List String) :=
  promiseAll ((List.range count).map sub)

lemma promiseAll_error_of_mem (ps : List (Except JsError String)) (e : JsError)
    (hmem : Except.error e ∈ ps) : ∃ e', promiseAll ps = .error e' := by
  induction ps with
  | nil => cases hmem
  | cons p rest ih =>
      rcases List.mem_cons.mp hmem with hp | hp
      · exact ⟨e, by rw [← hp]; rfl⟩
      · obtain ⟨e', he'⟩ := ih hp
        cases p with
        | error e0 => exact ⟨e0, rfl⟩
        | ok a =>
            refine ⟨e', ?_⟩
            show (match Except.ok a, promiseAll rest with
              | .error e, _ => Except.error e
              | .ok _, .error e => .error e
              | .ok a, .ok as => .ok (a :: as)) = Except.error e'
            rw [he']

/-- `AppState` from `src/types.ts`. -/
inductive AppState where
  | IDLE
  | ANALYZING
  | GENERATING
  | ERROR
deriving Repr, DecidableEq

/-- The `CreativeStudio` component state that `handleGenerate` touches. -/
structure CreativeState where
  englishPrompt : String
  appState : AppState := .IDLE
  error : Option String := none
  generatedImages : List GeneratedImage := []
deriving Repr, DecidableEq

def imageGenFailureMessage : String := "生成图片失败，模型可能繁忙，请重试。"

/-- `handleGenerate` of `CreativeStudio`, with the awaited
`generateImageFromPrompt` call modelled by the settled outcomes `sub` of
its fanned-out sub-requests; `ids`/`now` model `generateId()`/`Date.now()`.
The surrounding `App` gallery is threaded through unchanged because
`handleGenerate` never invokes `onImageSaved` — generated frames reach the
gallery only through the user-driven `handleSaveToGallery`. -/
def handleGenerate (st : CreativeState) (gallery : AppGalleryState)
    (imageCount : Nat) (sub : Nat → Except JsError String)
    (ids : Nat → String) (now : Int) : CreativeState × AppGalleryState :=
  if st.englishPrompt = "" then (st, gallery)
  else
    match generateImageFromPrompt imageCount sub with
    | .ok urls =>
        ({ st with
            appState := .IDLE
            error := none
            generatedImages := urls.enum.map (fun p =>
              { id := ids p.1, dataUrl := p.2
                promptUsed := st.englishPrompt, createdAt := now }) },
         gallery)
    | .error _ =>
        ({ st with
            appState := .ERROR
            error := some imageGenFailureMessage
            generatedImages := [] },
         gallery)

/-- C5: an ImageGenerate job with requested count `n` issues `n` remote
sub-requests, and if any one of them fails the whole job is Failed — the
service call rejects, `handleGenerate` ends in the `ERROR` state with no
partial images, and the gallery receives no frames. -/
theorem image_generate_all_or_nothing
    (st : CreativeState) (g : AppGalleryState) (n : Nat)
    (sub : Nat → Except JsError String) (ids : Nat → String) (now : Int)
    (i : Nat) (e : JsError)
    (hprompt : st.englishPrompt ≠ "") (_hn : 1 ≤ n ∧ n ≤ 3)
    (hi : i < n) (he : sub i = .error e) :
    (∃ e', generateImageFromPrompt n sub = .error e')
    ∧ (handleGenerate st g n sub ids now).1.appState = .ERROR
    ∧ (handleGenerate st g n sub ids now).1.generatedImages = []
    ∧ (handleGenerate st g n sub ids now).2 = g := by
  have hmem : Except.error e ∈ (List.range n).map sub :=
    List.mem_map.mpr ⟨i, List.mem_range.mpr hi, he⟩
  obtain ⟨e', he'⟩ := promiseAll_error_of_mem _ e hmem
  have hgen : generateImageFromPrompt n sub = .error e' := he'
  refine ⟨⟨e', hgen⟩, ?_, ?_, ?_⟩ <;>
    simp [handleGenerate, hprompt, hgen]

theorem image_generate_all_or_nothing_witness :
    (handleGenerate { englishPrompt := "a red fox" } initialGalleryState 3
        (fun i => if i = 1 then .error { message := some "boom" }
                  else .ok "data:image/png;base64,XYZ")
        (fun _ => "img-1") 0).1.appState = .ERROR
    ∧ (handleGenerate { englishPrompt := "a red fox" } initialGalleryState 3
        (fun i => if i = 1 then .error { message := some "boom" }
                  else .ok "data:image/png;base64,XYZ")
        (fun _ => "img-1") 0).1.generatedImages = []
    ∧ (handleGenerate { englishPrompt := "a red fox" } initialGalleryState 3
        (fun i => if i = 1 then .error { message := some "boom" }
                  else .ok "data:image/png;base64,XYZ")
        (fun _ => "img-1") 0).2 = initialGalleryState := by
  have h := image_generate_all_or_nothing { englishPrompt := "a red fox" }
    initialGalleryState 3
    (fun i => if i = 1 then .error { message := some "boom" }
              else .ok "data:image/png;base64,XYZ")
    (fun _ => "img-1") 0 1 { message := some "boom" }
    (by decide) ⟨by decide, by decide⟩ (by decide) rfl
  exact ⟨h.2.1, h.2.2.1, h.2.2.2⟩

/-! ## C6 — `analyzeFrame` response handling -/

/-- The two named fields that `analyzeFrame` reads off the parsed JSON
object; a field is `none` when absent. -/
structure ParsedAnalysis where
  chineseDescription : Option String := none
  englishPrompt : Option String := none
deriving Repr, DecidableEq

/-- JS `v || d` on an optional string field: the default replaces an absent
or empty (falsy) value. -/
def jsOrDefault (v : Option String) (d : String) : String :=
  match v with
  | some s => if s = "" then d else s
  | none => d

def parseFailureChinese : String := "解析响应失败"

def noTextMessage : String := "No text response received from Gemini."

/-- The response-handling tail of `analyzeFrame`
(src/services/geminiService.ts:57-72).  `text` is `response.text` (`none`
or the empty string are falsy); `parse` models `JSON.parse`, returning
`none` when it throws. -/
def analyzeResponseText (text : Option String)
    (parse : String → Option ParsedAnalysis) : Except String AnalysisResult :=
  match text with
  | some t =>
      if t = "" then .error noTextMessage
      else
        match parse t with
        | some j =>
            .ok { chineseDescription := jsOrDefault j.chineseDescription "无法生成中文描述"
                  englishPrompt := jsOrDefault j.englishPrompt "Could not generate prompt" }
        | none => .ok { chineseDescription := parseFailureChinese, englishPrompt := t }
  | none => .error noTextMessage

/-- C6: whenever the remote call returns non-empty response text that does
not parse as structured JSON, `analyzeFrame` succeeds (does not throw) with
`englishPrompt` equal to the raw response text and `chineseDescription`
equal to the fixed failure placeholder. -/
theorem analyze_parse_failure_degrades (t : String)
    (parse : String → Option ParsedAnalysis)
    (htext : t ≠ "") (hparse : parse t = none) :
    analyzeResponseText (some t) parse
      = .ok { chineseDescription := parseFailureChinese, englishPrompt := t } := by
  simp [analyzeResponseText, htext, hparse]

theorem analyze_parse_failure_degrades_witness :
    analyzeResponseText (some "this is not valid json")
        (fun _ => none)
      = .ok { chineseDescription := parseFailureChinese
              englishPrompt := "this is not valid json" } :=
  analyze_parse_failure_degrades "this is not valid json" (fun _ => none)
    (by decide) rfl

/-! ## C7 — the `generateVideoFromImage` polling loop -/

structure VideoRef where
  uri : Option String := none
deriving Repr, DecidableEq

structure GeneratedVideoHandle where
  video : Option VideoRef := none
deriving Repr, DecidableEq

structure VideoOperationResponse where
  generatedVideos : Option (List GeneratedVideoHandle) := none
deriving Repr, DecidableEq

/-- The long-running operation handle returned by `generateVideos` and by
each `operations.getVideosOperation` call. -/
structure VideoOperation where
  done : Bool
  response : Option VideoOperationResponse := none
deriving Repr, DecidableEq

/-- `operation.response?.generatedVideos?.[0]?.video?.uri`
(src/services/geminiService.ts:177). -/
def downloadLinkOf (op : VideoOperation) : Option String :=
  op.response.bind fun r =>
    r.generatedVideos.bind fun gs =>
      gs.head?.bind fun g => g.video.bind fun v => v.uri

/-- The `while (!operation.done)` loop of `generateVideoFromImage`
(src/services/geminiService.ts:172-175), with explicit fuel standing in for
the absent upper bound on attempts.  `poll k` is the operation returned by
the `k`-th `operations.getVideosOperation` call; each iteration first
awaits the fixed `setTimeout(..., 5000)`.  Returns the final operation, the
number of poll calls made, and the total milliseconds waited — or `none`
when the fuel ran out with the operation still pending. -/
def pollVideoOperation (poll : Nat → VideoOperation) :
    Nat → VideoOperation → Nat → Nat → Option (VideoOperation × Nat × Nat)
  | fuel, op, polls, waited =>
    if op.done then some (op, polls, waited)
    else
      match fuel with
      | 0 => none
      | fuel' + 1 =>
          pollVideoOperation poll fuel' (poll polls) (polls + 1) (waited + 5000)

/-- After the loop, `generateVideoFromImage` reads the download link off the
final operation and throws when it is absent
(src/services/geminiService.ts:177-180). -/
def videoResultAfterPoll (op : VideoOperation) : Except String String :=
  match downloadLinkOf op with
  | some uri => .ok uri
  | none => .error "Video generation failed: No URI returned."

lemma pollVideoOperation_done (poll : Nat → VideoOperation)
    (fuel : Nat) (op : VideoOperation) (polls waited : Nat) (h : op.done = true) :
    pollVideoOperation poll fuel op polls waited = some (op, polls, waited) := by
  cases fuel <;> simp [pollVideoOperation, h]

lemma pollVideoOperation_pending (poll : Nat → VideoOperation)
    (f : Nat) (op : VideoOperation) (polls waited : Nat) (h : op.done = false) :
    pollVideoOperation poll (f + 1) op polls waited
      = pollVideoOperation poll f (poll polls) (polls + 1) (waited + 5000) := by
  conv_lhs => rw [pollVideoOperation]
  rw [if_neg (by simp [h])]

lemma pollVideoOperation_run (poll : Nat → VideoOperation) :
    ∀ (n fuel k w : Nat) (op : VideoOperation),
      op.done = false →
      (∀ i, i < n → (poll (k + i)).done = false) →
      (poll (k + n)).done = true →
      n < fuel →
      pollVideoOperation poll fuel op k w
        = some (poll (k + n), k + n + 1, w + 5000 * (n + 1)) := by
  intro n
  induction n with
  | zero =>
      intro fuel k w op hop _ hdone hfuel
      cases fuel with
      | zero => exact absurd hfuel (by omega)
      | succ f =>
          have hk : (poll k).done = true := by simpa using hdone
          rw [pollVideoOperation_pending poll f op k w hop,
            pollVideoOperation_done poll f (poll k) (k + 1) (w + 5000) hk]
          simp
  | succ m ih =>
      intro fuel k w op hop hpend hdone hfuel
      cases fuel with
      | zero => exact absurd hfuel (by omega)
      | succ f =>
          have hstep := ih f (k + 1) (w + 5000) (poll k)
            (by simpa using hpend 0 (Nat.succ_pos m))
            (fun i hi => by
              have := hpend (i + 1) (by omega)
              simpa [show k + (i + 1) = k + 1 + i by omega] using this)
            (by
              have : k + 1 + m = k + (m + 1) := by omega
              rw [this]
              exact hdone)
            (by omega)
          have h1 : k + 1 + m = k + (m + 1) := by omega
          have h2 : w + 5000 + 5000 * (m + 1) = w + 5000 * (m + 1 + 1) := by omega
          rw [h1, h2] at hstep
          calc pollVideoOperation poll (f + 1) op k w
              = pollVideoOperation poll f (poll k) (k + 1) (w + 5000) :=
                pollVideoOperation_pending poll f op k w hop
            _ = some (poll (k + (m + 1)), k + (m + 1) + 1, w + 5000 * (m + 1 + 1)) := hstep

/-- C7: after submission the job polls the operation handle on a fixed
5000 ms interval until a `done` flag is observed, with no upper bound on
attempts: if the submitted operation is pending and the first `n` poll
results are pending while the `(n+1)`-th reports done with a URI, the loop
makes exactly `n + 1` poll calls, waits 5000 ms before each, and the job
reaches the success path with that URI.  In particular a mocked handle
reporting `done: false` twice then `done: true` is polled exactly three
times. -/
theorem video_polling_until_done
    (poll : Nat → VideoOperation) (op0 : VideoOperation) (n : Nat) (uri : String)
    (h0 : op0.done = false)
    (hpend : ∀ i, i < n → (poll i).done = false)
    (hdone : (poll n).done = true)
    (huri : downloadLinkOf (poll n) = some uri) :
    (∀ fuel, n < fuel →
      pollVideoOperation poll fuel op0 0 0
        = some (poll n, n + 1, 5000 * (n + 1)))
    ∧ videoResultAfterPoll (poll n) = .ok uri := by
  constructor
  · intro fuel hfuel
    have h := pollVideoOperation_run poll n fuel 0 0 op0 h0
      (fun i hi => by simpa using hpend i hi)
      (by simpa using hdone) hfuel
    simpa using h
  · simp [videoResultAfterPoll, huri]

/-- The mocked handle of the claim: the two first poll calls report
`done: false`, the third reports `done: true` carrying a video URI. -/
def mockVeoDoneOperation : VideoOperation :=
  { done := true
    response := some
      { generatedVideos := some [{ video := some { uri := some "https://veo.example/video.mp4" } }] } }

def mockVeoPoll (k : Nat) : VideoOperation :=
  if k < 2 then { done := false } else mockVeoDoneOperation

theorem video_polling_until_done_witness :
    pollVideoOperation mockVeoPoll 10 { done := false } 0 0
      = some (mockVeoPoll 2, 3, 15000)
    ∧ videoResultAfterPoll (mockVeoPoll 2) = .ok "https://veo.example/video.mp4" := by
  have h := video_polling_until_done mockVeoPoll { done := false } 2
    "https://veo.example/video.mp4" rfl
    (fun i hi => by
      interval_cases i <;> rfl)
    (by decide) (by decide)
  exact ⟨h.1 10 (by omega), h.2⟩

/-! ## C8 — aspect-ratio bucketing in `generateVideoFromImage` -/

/-- The aspect-ratio bucketing of `generateVideoFromImage`
(src/services/geminiService.ts:143-146): start from `'16:9'` and switch to
`'9:16'` when the input is `'9:16'` or `'3:4'`. -/
def bucketAspectRatio (ar : String) : String :=
  if ar = "9:16" ∨ ar = "3:4" then "9:16" else "16:9"

/-- C8: aspect-ratio bucketing is total and idempotent; every input in
{"16:9","9:16","4:3","3:4","1:1"} maps to exactly one of {"16:9","9:16"},
with "9:16" and "3:4" mapping to "9:16" and the other listed inputs to
"16:9". -/
theorem aspect_ratio_bucketing_total_idempotent :
    (∀ s, bucketAspectRatio (bucketAspectRatio s) = bucketAspectRatio s)
    ∧ (∀ s, bucketAspectRatio s = "16:9" ∨ bucketAspectRatio s = "9:16")
    ∧ bucketAspectRatio "16:9" = "16:9"
    ∧ bucketAspectRatio "9:16" = "9:16"
    ∧ bucketAspectRatio "4:3" = "16:9"
    ∧ bucketAspectRatio "3:4" = "9:16"
    ∧ bucketAspectRatio "1:1" = "16:9" := by
  have htot : ∀ s, bucketAspectRatio s = "16:9" ∨ bucketAspectRatio s = "9:16" := by
    intro s
    unfold bucketAspectRatio
    by_cases h : s = "9:16" ∨ s = "3:4"
    · rw [if_pos h]
      exact Or.inr rfl
    · rw [if_neg h]
      exact Or.inl rfl
  have hidem : ∀ s, bucketAspectRatio (bucketAspectRatio s) = bucketAspectRatio s := by
    intro s
    rcases htot s with h | h <;> rw [h] <;> decide
  exact ⟨hidem, htot, by decide, by decide, by decide, by decide, by decide⟩

/-! ## C9 — `handleSaveApiKey` in `src/App.tsx` -/

/-- The API-key state `handleSaveApiKey` touches: the in-memory `apiKey`
input value, the persisted `localStorage['user_gemini_api_key']` value, the
error banner, and the input-visibility flag. -/
structure ApiKeyState where
  apiKey : String
  storedKey : Option String
  keyError : Option String := none
  showKeyInput : Bool := true
deriving Repr, DecidableEq

def emptyKeyError : String := "API Key 不能为空"

def badPrefixKeyError : String := "无效的 Key 格式 (应以 AIza 开头)"

/-- `handleSaveApiKey` (src/App.tsx:27-45): trim the candidate; reject an
empty trim or a missing `AIza` prefix with an error message and no other
change; otherwise persist the trimmed key, make it the in-memory value,
close the input and clear the error. -/
def handleSaveApiKey (s : ApiKeyState) : ApiKeyState :=
  let trimmedKey := jsTrim s.apiKey
  if trimmedKey = "" then { s with keyError := some emptyKeyError }
  else if !jsStartsWith trimmedKey "AIza" then
    { s with keyError := some badPrefixKeyError }
  else
    { apiKey := trimmedKey, storedKey := some trimmedKey
      keyError := none, showKeyInput := false }

/-- C9: saving a candidate key fails with a format error when the candidate
is empty after trimming or does not start with the vendor prefix `AIza`,
and in the failure case the previously persisted credential is unaltered;
on success the trimmed candidate is persisted and becomes the in-memory
value. -/
theorem save_api_key_validation (s : ApiKeyState) :
    (jsTrim s.apiKey = "" ∨ jsStartsWith (jsTrim s.apiKey) "AIza" = false →
      (handleSaveApiKey s).keyError.isSome = true
      ∧ (handleSaveApiKey s).storedKey = s.storedKey
      ∧ (handleSaveApiKey s).apiKey = s.apiKey)
    ∧ (jsTrim s.apiKey ≠ "" → jsStartsWith (jsTrim s.apiKey) "AIza" = true →
      (handleSaveApiKey s).storedKey = some (jsTrim s.apiKey)
      ∧ (handleSaveApiKey s).apiKey = jsTrim s.apiKey
      ∧ (handleSaveApiKey s).keyError = none) := by
  constructor
  · rintro (h | h)
    · simp [handleSaveApiKey, h]
    · by_cases h0 : jsTrim s.apiKey = ""
      · simp [handleSaveApiKey, h0]
      · simp [handleSaveApiKey, h0, h]
  · intro h1 h2
    simp [handleSaveApiKey, h1, h2]

theorem save_api_key_validation_witness :
    (handleSaveApiKey { apiKey := "not-a-key", storedKey := some "AIzaOldKey" }).keyError.isSome
        = true
    ∧ (handleSaveApiKey { apiKey := "not-a-key", storedKey := some "AIzaOldKey" }).storedKey
        = some "AIzaOldKey" := by
  have h := save_api_key_validation { apiKey := "not-a-key", storedKey := some "AIzaOldKey" }
  have hfail := h.1 (Or.inr (by decide))
  exact ⟨hfail.1, hfail.2.1⟩

/-! ## C10 — the request built by `generateVideoFromImage` -/

/-- `stripBase64Prefix` (src/services/geminiService.ts:20-22):
`dataUrl.split(',')[1] || dataUrl`. -/
def stripBase64Prefix (dataUrl : String) : String :=
  match (dataUrl.splitOn ",").get? 1 with
  | some p => if p = "" then dataUrl else p
  | none => dataUrl

/-- `getMimeType` (src/services/geminiService.ts:24-26):
`dataUrl.split(';')[0].split(':')[1] || 'image/png'`. -/
def getMimeType (dataUrl : String) : String :=
  match (((dataUrl.splitOn ";").headD "").splitOn ":").get? 1 with
  | some p => if p = "" then "image/png" else p
  | none => "image/png"

def defaultVideoPrompt : String := "Animate this scene naturally, cinematic lighting, 4k"

/-- The `generateVideos` request assembled by `generateVideoFromImage`
(src/services/geminiService.ts:143-170): bucketed aspect ratio, fixed model
and resolution, the optional `lastFrame`, and `prompt || "Animate this
scene naturally, cinematic lighting, 4k"` — the default replaces a falsy
(empty) prompt string. -/
structure GenerateVideosRequest where
  model : String
  prompt : String
  imageBytes : String
  mimeType : String
  numberOfVideos : Nat
  resolution : String
  aspectRatio : String
  lastFrame : Option (String × String)
deriving Repr, DecidableEq

def buildGenerateVideosRequest (imageBase64 promptText aspectRatio : String)
    (endImageBase64 : Option String) : GenerateVideosRequest :=
  { model := "veo-3.1-fast-generate-preview"
    prompt := if promptText = "" then defaultVideoPrompt else promptText
    imageBytes := stripBase64Prefix imageBase64
    mimeType := getMimeType imageBase64
    numberOfVideos := 1
    resolution := "720p"
    aspectRatio := bucketAspectRatio aspectRatio
    lastFrame := endImageBase64.map (fun e => (stripBase64Prefix e, getMimeType e)) }

/-- C10: a VideoGenerate call whose prompt text is the empty string never
submits the empty prompt — the fixed default prompt is substituted into the
request, so the submitted prompt is non-empty. -/
theorem empty_video_prompt_gets_default (img ar : String) (endImg : Option String) :
    (buildGenerateVideosRequest img "" ar endImg).prompt = defaultVideoPrompt
    ∧ (buildGenerateVideosRequest img "" ar endImg).prompt ≠ "" := by
  refine ⟨rfl, ?_⟩
  show defaultVideoPrompt ≠ ""
  decide

end ClipForge
